import Mathlib

/-!
Verification development for a small Flask seat-reservation application
(`src/app.py`).  The data model and every route handler relevant to the
spec are embedded shallowly below:

* the database is a pair of lists (`reservations`, `admins`) mirroring the
  two SQLAlchemy tables;
* the Flask session is an `Option String` holding the value stored under
  the `admin_username` key (`none` = key absent);
* Python list indexing (which accepts negative indices and raises on
  out-of-bounds access) is modelled by `pyIndex`, returning `none` where
  Python raises `IndexError`;
* `random.choices` and the database-assigned primary key are
  nondeterministic inputs, passed to the flows as explicit parameters
  (`rand : Nat → Nat` supplies the index drawn for each position of the
  reservation code; `newId` is the id the store assigns on insert);
* form fields `seat_row` / `seat_column` arrive as `Option Int`: `none`
  models the `KeyError`/`ValueError` branch of the handler (field missing
  or not parseable by Python's `int`), `some n` a successful parse;
* a flow result of `none` models an unhandled Python exception.
-/

/-- Row of the `reservations` table (`class Reservation` in `app.py`).
The `created` timestamp column is never read by any flow and is omitted. -/
structure Reservation where
  id : Nat
  passengerName : String
  seatRow : Int
  seatColumn : Int
  eTicketNumber : String
deriving Repr, DecidableEq

/-- Row of the `admins` table (`class Admin` in `app.py`). -/
structure Admin where
  username : String
  password : String
deriving Repr, DecidableEq

/-- The persistent store: both tables. -/
structure DB where
  reservations : List Reservation
  admins : List Admin
deriving Repr, DecidableEq

/-- Python list indexing `xs[i]`: negative indices count from the end,
out-of-range access raises (modelled as `none`). -/
def pyIndex {α : Type} (xs : List α) (i : Int) : Option α :=
  let j : Int := if i < 0 then (xs.length : Int) + i else i
  if 0 ≤ j then xs[j.toNat]? else none

/-- `get_cost_matrix` from `app.py`: a 12 × 4 matrix of prices, each row
`[100, 75, 50, 100]`. -/
def get_cost_matrix : List (List Nat) :=
  List.replicate 12 [100, 75, 50, 100]

/-- `calculate_price_for_seat(row, col)` from `app.py`:
`matrix[row - 1][col - 1]` with Python indexing semantics. -/
def calculate_price_for_seat (row col : Int) : Option Nat :=
  (pyIndex get_cost_matrix (row - 1)).bind fun r => pyIndex r (col - 1)

/-- `calculate_total_sales` from `app.py`: running total over the
reservations, adding `calculate_price_for_seat` for each; `none` when a
lookup raises. -/
def calculate_total_sales (reservations : List Reservation) : Option Nat :=
  reservations.foldl
    (fun total r => total.bind fun t =>
      (calculate_price_for_seat r.seatRow r.seatColumn).map fun p => t + p)
    (some 0)

/-- The alphabet `string.ascii_uppercase + string.digits` used by
`generate_reservation_code`. -/
def codeAlphabet : List Char :=
  "ABCDEFGHIJKLMNOPQRSTUVWXYZ0123456789".toList

/-- `generate_reservation_code` from `app.py`:
`random.choices(string.ascii_uppercase + string.digits, k=length)` joined
into a string.  `rand i` supplies the random draw for position `i`; the
choice is uniform over the 36-symbol alphabet, modelled by reducing the
draw modulo the alphabet length. -/
def generate_reservation_code (rand : Nat → Nat) (length : Nat := 8) : String :=
  String.mk ((List.range length).map fun i =>
    codeAlphabet.getD (rand i % codeAlphabet.length) 'A')

/-- The `seats` grid initialised at the top of `build_seating_chart`:
12 rows of 4 open seats. -/
def emptySeats : List (List String) :=
  List.replicate 12 (List.replicate 4 "O")

/-- One iteration of the loop in `build_seating_chart`: mark the seat of
reservation `r` with "X" when its 0-based indices are in bounds, else
leave the grid alone. -/
def markSeat (seats : List (List String)) (r : Reservation) : List (List String) :=
  let rowIdx : Int := r.seatRow - 1
  let colIdx : Int := r.seatColumn - 1
  if 0 ≤ rowIdx ∧ rowIdx < 12 ∧ 0 ≤ colIdx ∧ colIdx < 4 then
    match seats[rowIdx.toNat]? with
    | some rowList => seats.set rowIdx.toNat (rowList.set colIdx.toNat "X")
    | none => seats
  else seats

/-- The grid state after the marking loop of `build_seating_chart`. -/
def chartSeats (reservations : List Reservation) : List (List String) :=
  reservations.foldl markSeat emptySeats

/-- Python's `f"{i:2}"` for the row label: right-aligned in width 2. -/
def padRowNum (i : Nat) : String :=
  if i < 10 then " " ++ toString i else toString i

/-- `build_seating_chart` from `app.py`: the marked grid rendered as one
line per row, `"Row {i:2}: "` followed by the cells joined by spaces. -/
def build_seating_chart (reservations : List Reservation) : String :=
  String.intercalate "\n"
    ((chartSeats reservations).enum.map fun p =>
      "Row " ++ padRowNum (p.1 + 1) ++ ": " ++ String.intercalate " " p.2)

/-- Cell access into a seating grid: row `i`, column `j`, both 0-based. -/
def cellAt (g : List (List String)) (i j : Nat) : Option String :=
  g[i]?.bind fun row => row[j]?

/-- The POST form of the `/reserve` route.  `none` in a seat field models
the `KeyError`/`ValueError` caught by the handler (missing field or value
not parseable by `int`). -/
structure BookForm where
  first_name : String
  last_name : String
  seat_row : Option Int
  seat_column : Option Int
deriving Repr, DecidableEq

/-- What `reserve_seat` hands to the template, plus the store it leaves
behind. -/
structure BookOutcome where
  error : Option String
  success : Option String
  seating : String
  db : DB
deriving Repr, DecidableEq

/-- Python's `f"{price:.2f}"` for the integer prices of the cost matrix. -/
def formatPrice (p : Nat) : String := toString p ++ ".00"

/-- The `reserve_seat` POST handler from `app.py`.  `newId` is the primary
key the store assigns on insert; `rand` feeds `generate_reservation_code`.
A result of `none` is an unhandled exception (unreachable on the paths the
handler guards). -/
def reserve_seat (form : BookForm) (db : DB) (newId : Nat) (rand : Nat → Nat) :
    Option BookOutcome :=
  let seating := build_seating_chart db.reservations
  let passenger_name := form.first_name.trim ++ " " ++ form.last_name.trim
  match form.seat_row, form.seat_column with
  | some seat_row, some seat_column =>
    if 1 ≤ seat_row ∧ seat_row ≤ 12 ∧ 1 ≤ seat_column ∧ seat_column ≤ 4 then
      match db.reservations.find?
          (fun r => r.seatRow == seat_row && r.seatColumn == seat_column) with
      | some _ =>
        some { error := some "That seat is already reserved. Please pick another.",
               success := none, seating := seating, db := db }
      | none =>
        let code := generate_reservation_code rand
        let new_res : Reservation :=
          { id := newId, passengerName := passenger_name,
            seatRow := seat_row, seatColumn := seat_column,
            eTicketNumber := code }
        let reservations2 := db.reservations ++ [new_res]
        let seating2 := build_seating_chart reservations2
        (calculate_price_for_seat seat_row seat_column).map fun price =>
          { error := none,
            success := some ("Reservation confirmed for " ++ passenger_name
              ++ "! Code: " ++ code ++ ", Seat: Row " ++ toString seat_row
              ++ ", Column " ++ toString seat_column
              ++ ", Price: $" ++ formatPrice price),
            seating := seating2,
            db := { db with reservations := reservations2 } }
    else
      some { error := some "Invalid seat selection. Row must be 1–12 and column 1–4.",
             success := none, seating := seating, db := db }
  | _, _ =>
    some { error := some "Seat row and column must be numbers.",
           success := none, seating := seating, db := db }

/-- The POST form of the `/admin/login` route. -/
structure LoginForm where
  username : String
  password : String
deriving Repr, DecidableEq

/-- What the login handler does: redirect to the dashboard, or re-render
the login page with an optional error. -/
inductive LoginView where
  | redirectDashboard
  | loginPage (error : Option String)
deriving Repr, DecidableEq

/-- The `admin_login` POST handler from `app.py`: strip both fields, look
up an admin matching both, set the session on success.  Returns the view
and the session after the request. -/
def admin_login (form : LoginForm) (db : DB) (sess : Option String) :
    LoginView × Option String :=
  let username := form.username.trim
  let password := form.password.trim
  match db.admins.find? (fun a => a.username == username && a.password == password) with
  | some admin => (.redirectDashboard, some admin.username)
  | none => (.loginPage (some "Invalid username or password."), sess)

/-- What the dashboard handler renders: a redirect to the login flow, or
the dashboard page with seating chart, total sales and the priced
reservation list. -/
inductive DashboardView where
  | redirectLogin
  | page (seating : String) (total_sales : Nat)
      (reservations_with_price : List (Reservation × Nat))
deriving Repr, DecidableEq

/-- The `admin_dashboard` handler from `app.py`.  Without the session key
it redirects to login; otherwise it renders the chart, the total and the
per-reservation prices.  `none` models a price lookup raising. -/
def admin_dashboard (sess : Option String) (db : DB) : Option DashboardView :=
  match sess with
  | none => some .redirectLogin
  | some _ =>
    (calculate_total_sales db.reservations).bind fun total =>
      (db.reservations.mapM fun r =>
        (calculate_price_for_seat r.seatRow r.seatColumn).map fun p => (r, p)).map
        fun rw => .page (build_seating_chart db.reservations) total rw

/-- Where the delete handler redirects. -/
inductive DeleteView where
  | redirectLogin
  | redirectDashboard
deriving Repr, DecidableEq

/-- The `delete_reservation` handler from `app.py`: behind the session
gate; `Reservation.query.get(res_id)` is lookup by primary key, and a hit
deletes that row.  Returns the redirect and the store it leaves behind. -/
def delete_reservation (sess : Option String) (db : DB) (res_id : Nat) :
    DeleteView × DB :=
  match sess with
  | none => (.redirectLogin, db)
  | some _ =>
    match db.reservations.find? (fun r => r.id == res_id) with
    | some _ =>
      (.redirectDashboard,
        { db with reservations := db.reservations.eraseP (fun r => r.id == res_id) })
    | none => (.redirectDashboard, db)

/-! ### Helper lemmas about `pyIndex` and the pricing helpers -/

lemma pyIndex_eq_none_iff {α : Type} (xs : List α) (i : Int) :
    pyIndex xs i = none ↔ i < -(xs.length : Int) ∨ (xs.length : Int) ≤ i := by
  simp only [pyIndex]
  split_ifs with h1 h2 h3 <;>
    simp only [List.getElem?_eq_none_iff, reduceCtorEq, false_iff, true_iff] <;>
    omega

lemma cost_matrix_row {i : Int} {row : List Nat}
    (h : pyIndex get_cost_matrix i = some row) : row = [100, 75, 50, 100] := by
  simp only [pyIndex, get_cost_matrix, List.length_replicate,
    List.getElem?_replicate] at h
  split_ifs at h <;> exact (Option.some_inj.mp h).symm

lemma cost_matrix_lookup {r : Int} (h1 : 1 ≤ r) (h2 : r ≤ 12) :
    pyIndex get_cost_matrix (r - 1) = some [100, 75, 50, 100] := by
  simp only [pyIndex, get_cost_matrix, List.length_replicate,
    List.getElem?_replicate]
  rw [if_neg (by omega : ¬(r - 1 < 0))]
  rw [if_pos (by omega : (0:Int) ≤ r - 1), if_pos (by omega)]

lemma calculate_price_eq {r c : Int} (h1 : 1 ≤ r) (h2 : r ≤ 12) (h3 : 1 ≤ c) (h4 : c ≤ 4) :
    calculate_price_for_seat r c
      = some (if c = 1 ∨ c = 4 then 100 else if c = 2 then 75 else 50) := by
  unfold calculate_price_for_seat
  rw [cost_matrix_lookup h1 h2, Option.some_bind]
  interval_cases c <;> decide

lemma calculate_price_isSome {r c : Int} (h1 : 1 ≤ r) (h2 : r ≤ 12) (h3 : 1 ≤ c) (h4 : c ≤ 4) :
    (calculate_price_for_seat r c).isSome := by
  rw [calculate_price_eq h1 h2 h3 h4]
  rfl

/-- C2: for every row `r ∈ [1,12]` and column `c ∈ [1,4]`,
`calculate_price_for_seat r c` returns 100 if `c` is 1 or 4, 75 if `c` is
2, and 50 if `c` is 3, regardless of `r`. -/
theorem C2_priceOf_columns (r c : Int)
    (h1 : 1 ≤ r) (h2 : r ≤ 12) (h3 : 1 ≤ c) (h4 : c ≤ 4) :
    calculate_price_for_seat r c
      = some (if c = 1 ∨ c = 4 then 100 else if c = 2 then 75 else 50) :=
  calculate_price_eq h1 h2 h3 h4

/-- Witness for C2 at the concrete seat (7, 2). -/
theorem C2_priceOf_columns_witness :
    calculate_price_for_seat 7 2
      = some (if (2:Int) = 1 ∨ (2:Int) = 4 then 100 else if (2:Int) = 2 then 75 else 50) :=
  C2_priceOf_columns 7 2 (by decide) (by decide) (by decide) (by decide)

/-- C9 counterexample: column 0 lies outside `[1,4]`, yet
`calculate_price_for_seat 1 0` evaluates `matrix[0][-1]` — Python's
negative indexing — and returns the price 100 rather than failing. -/
theorem C9_counterexample :
    ¬(1 ≤ (0:Int) ∧ (0:Int) ≤ 4) ∧ calculate_price_for_seat 1 0 = some 100 := by
  constructor
  · decide
  · decide

/-- C9 (amended): the index access is out of bounds — and hence returns no
price — exactly when the 0-based index escapes Python's negative-index
range as well: row outside `[-11,12]` or column outside `[-3,4]`.
Out-of-range seats inside those wider bounds (such as column 0) are
resolved by negative indexing and do return a price. -/
theorem C9_priceOf_out_of_bounds (r c : Int)
    (h : r < -11 ∨ 12 < r ∨ c < -3 ∨ 4 < c) :
    calculate_price_for_seat r c = none := by
  unfold calculate_price_for_seat
  rcases hrow : pyIndex get_cost_matrix (r - 1) with _ | row
  · rfl
  · have hrowlen : (r - 1 < -12 ∨ 12 ≤ r - 1) → False := by
      intro hcontra
      have := (pyIndex_eq_none_iff get_cost_matrix (r - 1)).mpr (by
        simpa [get_cost_matrix] using hcontra)
      rw [hrow] at this
      exact Option.noConfusion this
    have hc : c < -3 ∨ 4 < c := by
      rcases h with h | h | h | h
      · exact absurd (Or.inl (by omega)) (fun x => hrowlen x)
      · exact absurd (Or.inr (by omega)) (fun x => hrowlen x)
      · exact Or.inl h
      · exact Or.inr h
    rw [Option.some_bind, cost_matrix_row hrow]
    rw [pyIndex_eq_none_iff]
    simp only [List.length_cons, List.length_nil]
    omega

lemma codeAlphabet_ok :
    ∀ j < codeAlphabet.length,
      ('A' ≤ codeAlphabet.getD j 'A' ∧ codeAlphabet.getD j 'A' ≤ 'Z') ∨
      ('0' ≤ codeAlphabet.getD j 'A' ∧ codeAlphabet.getD j 'A' ≤ '9') := by
  decide

/-- C8: every code produced by the reservation code generator (called, as
in the handler, with the default length) has exactly 8 characters, each
drawn from A–Z or 0–9. -/
theorem C8_code_shape (rand : Nat → Nat) :
    (generate_reservation_code rand).length = 8 ∧
    ∀ ch ∈ (generate_reservation_code rand).toList,
      ('A' ≤ ch ∧ ch ≤ 'Z') ∨ ('0' ≤ ch ∧ ch ≤ '9') := by
  constructor
  · simp [generate_reservation_code, String.length]
  · intro ch hch
    simp only [generate_reservation_code, String.toList, String.mk, List.mem_map,
      List.mem_range] at hch
    obtain ⟨i, _, hi⟩ := hch
    subst hi
    exact codeAlphabet_ok _ (Nat.mod_lt _ (by decide))

/-- Witness for C8: instantiated at a concrete randomness source, and the
character property checked on a concrete member of the code. -/
theorem C8_code_shape_witness :
    (generate_reservation_code (fun _ => 0)).length = 8 ∧
    (('A' ≤ 'A' ∧ 'A' ≤ 'Z') ∨ ('0' ≤ 'A' ∧ 'A' ≤ '9')) :=
  ⟨(C8_code_shape (fun _ => 0)).1,
   (C8_code_shape (fun _ => 0)).2 'A' (by decide)⟩

/-! ### The booking flow -/

/-- C3: a booking request whose seat row or column is missing or not
integer-parseable (the `KeyError`/`ValueError` branch), or whose parsed
row is outside [1,12] or column outside [1,4], fails with the
corresponding validation error: no success message, the pre-existing
seating chart, and the store unchanged. -/
theorem C3_validation_failures (form : BookForm) (db : DB) (newId : Nat)
    (rand : Nat → Nat) :
    (form.seat_row = none ∨ form.seat_column = none →
      reserve_seat form db newId rand =
        some { error := some "Seat row and column must be numbers.",
               success := none,
               seating := build_seating_chart db.reservations, db := db }) ∧
    (∀ r c : Int, form.seat_row = some r → form.seat_column = some c →
      (r < 1 ∨ 12 < r ∨ c < 1 ∨ 4 < c) →
      reserve_seat form db newId rand =
        some { error := some "Invalid seat selection. Row must be 1–12 and column 1–4.",
               success := none,
               seating := build_seating_chart db.reservations, db := db }) := by
  constructor
  · intro h
    rcases hr : form.seat_row with _ | r
    · simp [reserve_seat, hr]
    · rcases hc : form.seat_column with _ | c
      · simp [reserve_seat, hr, hc]
      · rw [hr, hc] at h
        rcases h with h | h <;> exact absurd h (by simp)
  · intro r c hr hc hout
    simp only [reserve_seat, hr, hc]
    rw [if_neg (by omega)]

/-- Witness for C3: a request with a missing/unparseable column on the
empty store. -/
theorem C3_validation_failures_witness :
    reserve_seat ⟨"Ann", "Lee", some 3, none⟩ ⟨[], []⟩ 1 (fun _ => 0) =
      some { error := some "Seat row and column must be numbers.",
             success := none,
             seating := build_seating_chart ([] : List Reservation),
             db := ⟨[], []⟩ } :=
  (C3_validation_failures ⟨"Ann", "Lee", some 3, none⟩ ⟨[], []⟩ 1 (fun _ => 0)).1
    (Or.inr rfl)

lemma reserve_seat_failure (form : BookForm) (db : DB) (newId : Nat)
    (rand : Nat → Nat) (o : BookOutcome)
    (h : reserve_seat form db newId rand = some o) (herr : o.error ≠ none) :
    o.db = db ∧ o.success = none ∧ o.seating = build_seating_chart db.reservations := by
  rcases hrow : form.seat_row with _ | r
  · simp only [reserve_seat, hrow] at h
    obtain rfl := Option.some_inj.mp h
    exact ⟨rfl, rfl, rfl⟩
  rcases hcol : form.seat_column with _ | c
  · simp only [reserve_seat, hrow, hcol] at h
    obtain rfl := Option.some_inj.mp h
    exact ⟨rfl, rfl, rfl⟩
  simp only [reserve_seat, hrow, hcol] at h
  split_ifs at h with hrange
  · rcases hfind : db.reservations.find?
        (fun x => x.seatRow == r && x.seatColumn == c) with _ | res
    · rw [hfind] at h
      rcases hp : calculate_price_for_seat r c with _ | p
      · rw [hp] at h
        exact absurd h (by simp)
      · rw [hp] at h
        simp only [Option.map_some'] at h
        obtain rfl := Option.some_inj.mp h
        exact absurd rfl herr
    · rw [hfind] at h
      obtain rfl := Option.some_inj.mp h
      exact ⟨rfl, rfl, rfl⟩
  · obtain rfl := Option.some_inj.mp h
    exact ⟨rfl, rfl, rfl⟩

lemma reserve_seat_success (form : BookForm) (db : DB) (newId : Nat)
    (rand : Nat → Nat) {r c : Int}
    (hrow : form.seat_row = some r) (hcol : form.seat_column = some c)
    (h1 : 1 ≤ r) (h2 : r ≤ 12) (h3 : 1 ≤ c) (h4 : c ≤ 4)
    (hfree : db.reservations.find?
      (fun x => x.seatRow == r && x.seatColumn == c) = none) :
    ∃ o res, reserve_seat form db newId rand = some o ∧
      res.seatRow = r ∧ res.seatColumn = c ∧ res.id = newId ∧
      o.error = none ∧ o.success.isSome ∧
      o.db.reservations = db.reservations ++ [res] ∧
      o.db.admins = db.admins ∧
      o.seating = build_seating_chart (db.reservations ++ [res]) := by
  simp only [reserve_seat, hrow, hcol]
  rw [if_pos ⟨h1, h2, h3, h4⟩, hfree]
  rcases hp : calculate_price_for_seat r c with _ | p
  · have hs := calculate_price_isSome h1 h2 h3 h4
    rw [hp] at hs
    simp at hs
  · simp only [Option.map_some']
    exact ⟨_, _, rfl, rfl, rfl, rfl, rfl, rfl, rfl, rfl, rfl⟩

/-- The data-model invariant: no two stored reservations share a seat. -/
def atMostOnePerSeat (rs : List Reservation) : Prop :=
  List.Pairwise (fun a b => ¬(a.seatRow = b.seatRow ∧ a.seatColumn = b.seatColumn)) rs

lemma filter_length_one {α : Type} (p : α → Bool) :
    ∀ l : List α, (∃ x ∈ l, p x) →
    List.Pairwise (fun a b => ¬(p a = true ∧ p b = true)) l →
    (l.filter p).length = 1 := by
  intro l
  induction l with
  | nil => rintro ⟨x, hx, _⟩ _; cases hx
  | cons a l ih =>
    rintro ⟨x, hx, hpx⟩ hpair
    obtain ⟨hhead, htail⟩ := List.pairwise_cons.mp hpair
    by_cases hpa : p a
    · rw [List.filter_cons_of_pos hpa, List.length_cons]
      have hnil : l.filter p = [] := by
        rw [List.filter_eq_nil_iff]
        intro b hb hpb
        exact hhead b hb ⟨hpa, hpb⟩
      rw [hnil]
      rfl
    · rw [List.filter_cons_of_neg hpa]
      apply ih _ htail
      rcases List.mem_cons.mp hx with rfl | hx'
      · exact absurd hpx hpa
      · exact ⟨x, hx', hpx⟩

lemma reserve_seat_success_inv (form : BookForm) (db : DB) (newId : Nat)
    (rand : Nat → Nat) (o : BookOutcome)
    (h : reserve_seat form db newId rand = some o) (herr : o.error = none) :
    ∃ r c res, form.seat_row = some r ∧ form.seat_column = some c ∧
      db.reservations.find? (fun x => x.seatRow == r && x.seatColumn == c) = none ∧
      res.seatRow = r ∧ res.seatColumn = c ∧
      o.db.reservations = db.reservations ++ [res] ∧ o.db.admins = db.admins := by
  rcases hrow : form.seat_row with _ | r
  · simp only [reserve_seat, hrow] at h
    obtain rfl := Option.some_inj.mp h
    cases herr
  rcases hcol : form.seat_column with _ | c
  · simp only [reserve_seat, hrow, hcol] at h
    obtain rfl := Option.some_inj.mp h
    cases herr
  simp only [reserve_seat, hrow, hcol] at h
  split_ifs at h with hrange
  · rcases hfind : db.reservations.find?
        (fun x => x.seatRow == r && x.seatColumn == c) with _ | res
    · rw [hfind] at h
      rcases hp : calculate_price_for_seat r c with _ | p
      · rw [hp] at h
        exact absurd h (by simp)
      · rw [hp] at h
        simp only [Option.map_some'] at h
        obtain rfl := Option.some_inj.mp h
        exact ⟨r, c, _, rfl, rfl, hfind, rfl, rfl, rfl, rfl⟩
    · rw [hfind] at h
      obtain rfl := Option.some_inj.mp h
      cases herr
  · obtain rfl := Option.some_inj.mp h
    cases herr

/-- C4: booking a seat that already has a reservation fails with the
conflict error, the store is unchanged (so it still holds exactly one
reservation for that seat), and the at-most-one-reservation-per-seat
invariant is preserved by every booking outcome. -/
theorem C4_conflict_and_seat_uniqueness :
    (∀ (form : BookForm) (db : DB) (newId : Nat) (rand : Nat → Nat) (r c : Int),
      form.seat_row = some r → form.seat_column = some c →
      1 ≤ r → r ≤ 12 → 1 ≤ c → c ≤ 4 →
      (∃ res ∈ db.reservations, res.seatRow = r ∧ res.seatColumn = c) →
      reserve_seat form db newId rand =
        some { error := some "That seat is already reserved. Please pick another.",
               success := none,
               seating := build_seating_chart db.reservations, db := db } ∧
      (atMostOnePerSeat db.reservations →
        (db.reservations.filter fun res =>
          res.seatRow == r && res.seatColumn == c).length = 1)) ∧
    (∀ (form : BookForm) (db : DB) (newId : Nat) (rand : Nat → Nat) (o : BookOutcome),
      atMostOnePerSeat db.reservations →
      reserve_seat form db newId rand = some o →
      atMostOnePerSeat o.db.reservations) := by
  constructor
  · intro form db newId rand r c hrow hcol h1 h2 h3 h4 hex
    obtain ⟨res0, hres0, hrr, hcc⟩ := hex
    have hsome : (db.reservations.find?
        (fun x => x.seatRow == r && x.seatColumn == c)).isSome := by
      rw [List.find?_isSome]
      exact ⟨res0, hres0, by simp [hrr, hcc]⟩
    obtain ⟨res1, hfind⟩ := Option.isSome_iff_exists.mp hsome
    constructor
    · simp only [reserve_seat, hrow, hcol]
      rw [if_pos ⟨h1, h2, h3, h4⟩, hfind]
    · intro hinv
      apply filter_length_one _ _ ⟨res0, hres0, by simp [hrr, hcc]⟩
      apply hinv.imp
      intro a b hab hpab
      obtain ⟨hpa, hpb⟩ := hpab
      simp only [Bool.and_eq_true, beq_iff_eq] at hpa hpb
      exact hab ⟨hpa.1.trans hpb.1.symm, hpa.2.trans hpb.2.symm⟩
  · intro form db newId rand o hinv h
    rcases herr : o.error with _ | msg
    · obtain ⟨r, c, res, _, _, hfree, hr, hc, hres, _⟩ :=
        reserve_seat_success_inv form db newId rand o h herr
      rw [hres]
      rw [atMostOnePerSeat, List.pairwise_append]
      refine ⟨hinv, List.pairwise_singleton _ _, ?_⟩
      intro a ha b hb hab
      obtain rfl := List.mem_singleton.mp hb
      have := List.find?_eq_none.mp hfree a ha
      simp only [Bool.and_eq_true, beq_iff_eq, not_and] at this
      obtain ⟨hr1, hc1⟩ := hab
      rw [hr] at hr1
      rw [hc] at hc1
      exact this hr1 hc1
    · have := (reserve_seat_failure form db newId rand o h (by rw [herr]; simp)).1
      rw [this]
      exact hinv

/-- Witness for C4: the seat (2,3) is already reserved in a one-row store;
a second attempt is rejected and that store holds exactly one matching row. -/
theorem C4_conflict_and_seat_uniqueness_witness :
    reserve_seat ⟨"C", "D", some 2, some 3⟩
        ⟨[⟨1, "A B", 2, 3, "QQQQQQQQ"⟩], []⟩ 2 (fun _ => 0) =
      some { error := some "That seat is already reserved. Please pick another.",
             success := none,
             seating := build_seating_chart [⟨1, "A B", 2, 3, "QQQQQQQQ"⟩],
             db := ⟨[⟨1, "A B", 2, 3, "QQQQQQQQ"⟩], []⟩ } ∧
    (([⟨1, "A B", 2, 3, "QQQQQQQQ"⟩] : List Reservation).filter fun res =>
        res.seatRow == 2 && res.seatColumn == 3).length = 1 := by
  have h := C4_conflict_and_seat_uniqueness.1 ⟨"C", "D", some 2, some 3⟩
    ⟨[⟨1, "A B", 2, 3, "QQQQQQQQ"⟩], []⟩ 2 (fun _ => 0) 2 3 rfl rfl
    (by decide) (by decide) (by decide) (by decide)
    ⟨⟨1, "A B", 2, 3, "QQQQQQQQ"⟩, by simp, rfl, rfl⟩
  exact ⟨h.1, h.2 (by simp [atMostOnePerSeat])⟩

/-! ### The seating-chart grid -/

lemma markSeat_shape (g : List (List String)) (res : Reservation)
    (hlen : g.length = 12)
    (hrows : ∀ row ∈ g, row.length = 4) :
    (markSeat g res).length = 12 ∧
    ∀ row ∈ markSeat g res, row.length = 4 := by
  simp only [markSeat]
  split_ifs with hb
  · rcases hg : g[(res.seatRow - 1).toNat]? with _ | row0
    · simp only [hg]
      exact ⟨hlen, hrows⟩
    · simp only [hg]
      refine ⟨by rw [List.length_set]; exact hlen, ?_⟩
      intro row hrow
      rcases List.mem_or_eq_of_mem_set hrow with h | rfl
      · exact hrows _ h
      · rw [List.length_set]
        exact hrows _ (List.getElem?_mem hg)
  · exact ⟨hlen, hrows⟩

lemma chartSeats_aux_shape (rs : List Reservation) :
    ∀ g : List (List String), g.length = 12 →
    (∀ row ∈ g, row.length = 4) →
    (rs.foldl markSeat g).length = 12 ∧
    ∀ row ∈ rs.foldl markSeat g, row.length = 4 := by
  induction rs with
  | nil => intro g h1 h2; exact ⟨h1, h2⟩
  | cons res rs ih =>
    intro g h1 h2
    rw [List.foldl_cons]
    obtain ⟨h1', h2'⟩ := markSeat_shape g res h1 h2
    exact ih _ h1' h2'

lemma chartSeats_shape (rs : List Reservation) :
    (chartSeats rs).length = 12 ∧
    ∀ row ∈ chartSeats rs, row.length = 4 := by
  apply chartSeats_aux_shape
  · rfl
  · intro row h
    simp only [emptySeats, List.mem_replicate] at h
    rw [h.2]
    rfl

lemma markSeat_cell (g : List (List String)) (res : Reservation)
    (hlen : g.length = 12)
    (hrows : ∀ row ∈ g, row.length = 4)
    (hr1 : 1 ≤ res.seatRow) (hr2 : res.seatRow ≤ 12)
    (hc1 : 1 ≤ res.seatColumn) (hc2 : res.seatColumn ≤ 4)
    (i j : Nat) :
    cellAt (markSeat g res) i j =
      if i = (res.seatRow - 1).toNat ∧ j = (res.seatColumn - 1).toNat
      then some "X" else cellAt g i j := by
  have hcond : (0:Int) ≤ res.seatRow - 1 ∧ res.seatRow - 1 < 12 ∧
      (0:Int) ≤ res.seatColumn - 1 ∧ res.seatColumn - 1 < 4 := by omega
  simp only [markSeat, if_pos hcond]
  rcases hg : g[(res.seatRow - 1).toNat]? with _ | row0
  · rw [List.getElem?_eq_none_iff] at hg
    omega
  · have hrow0len : row0.length = 4 := hrows _ (List.getElem?_mem hg)
    simp only [hg, cellAt, List.getElem?_set]
    by_cases hii : (res.seatRow - 1).toNat = i
    · rw [if_pos hii, if_pos (by omega), Option.some_bind, List.getElem?_set]
      by_cases hjj : (res.seatColumn - 1).toNat = j
      · rw [if_pos hjj, if_pos (by omega), if_pos ⟨hii.symm, hjj.symm⟩]
      · rw [if_neg hjj, if_neg (fun hand => hjj hand.2.symm), ← hii, hg,
          Option.some_bind]
    · rw [if_neg hii, if_neg (fun hand => hii hand.1.symm)]

lemma chartSeats_append_cell (rs : List Reservation) (res : Reservation)
    (hr1 : 1 ≤ res.seatRow) (hr2 : res.seatRow ≤ 12)
    (hc1 : 1 ≤ res.seatColumn) (hc2 : res.seatColumn ≤ 4)
    (i j : Nat) :
    cellAt (chartSeats (rs ++ [res])) i j =
      if i = (res.seatRow - 1).toNat ∧ j = (res.seatColumn - 1).toNat
      then some "X" else cellAt (chartSeats rs) i j := by
  obtain ⟨hlen, hrows⟩ := chartSeats_shape rs
  have hfold : chartSeats (rs ++ [res]) = markSeat (chartSeats rs) res := by
    rw [chartSeats, List.foldl_append, List.foldl_cons, List.foldl_nil]
    rfl
  rw [hfold]
  exact markSeat_cell _ _ hlen hrows hr1 hr2 hc1 hc2 i j

/-- C1: booking a free in-range seat succeeds, inserts exactly one
reservation row (admins untouched), the returned chart is rendered from
the post-insertion store, the grid marks the booked cell occupied while
every other cell is unchanged; every failure path leaves the store
exactly as it was. -/
theorem C1_booking_success_frame :
    (∀ (form : BookForm) (db : DB) (newId : Nat) (rand : Nat → Nat) (r c : Int),
      form.seat_row = some r → form.seat_column = some c →
      1 ≤ r → r ≤ 12 → 1 ≤ c → c ≤ 4 →
      (∀ res ∈ db.reservations, ¬(res.seatRow = r ∧ res.seatColumn = c)) →
      ∃ o res, reserve_seat form db newId rand = some o ∧
        o.error = none ∧ o.success.isSome ∧
        res.seatRow = r ∧ res.seatColumn = c ∧
        o.db.reservations = db.reservations ++ [res] ∧
        o.db.admins = db.admins ∧
        o.seating = build_seating_chart o.db.reservations ∧
        cellAt (chartSeats o.db.reservations) (r - 1).toNat (c - 1).toNat
          = some "X" ∧
        (∀ r' c' : Int, 1 ≤ r' → r' ≤ 12 → 1 ≤ c' → c' ≤ 4 → ¬(r' = r ∧ c' = c) →
          cellAt (chartSeats o.db.reservations) (r' - 1).toNat (c' - 1).toNat =
            cellAt (chartSeats db.reservations) (r' - 1).toNat (c' - 1).toNat)) ∧
    (∀ (form : BookForm) (db : DB) (newId : Nat) (rand : Nat → Nat) (o : BookOutcome),
      reserve_seat form db newId rand = some o → o.error ≠ none → o.db = db) := by
  constructor
  · intro form db newId rand r c hrow hcol h1 h2 h3 h4 hnone
    have hfree : db.reservations.find?
        (fun x => x.seatRow == r && x.seatColumn == c) = none := by
      rw [List.find?_eq_none]
      intro x hx hpx
      simp only [Bool.and_eq_true, beq_iff_eq] at hpx
      exact hnone x hx hpx
    obtain ⟨o, res, heq, hr, hc, hid, herr, hsucc, hres, hadm, hseat⟩ :=
      reserve_seat_success form db newId rand hrow hcol h1 h2 h3 h4 hfree
    refine ⟨o, res, heq, herr, hsucc, hr, hc, hres, hadm, by rw [hseat, hres], ?_, ?_⟩
    · rw [hres, chartSeats_append_cell db.reservations res (by omega) (by omega)
        (by omega) (by omega)]
      rw [if_pos ⟨by rw [hr], by rw [hc]⟩]
    · intro r' c' h1' h2' h3' h4' hne
      rw [hres, chartSeats_append_cell db.reservations res (by omega) (by omega)
        (by omega) (by omega)]
      rw [if_neg ?_]
      intro hand
      obtain ⟨hi, hj⟩ := hand
      rw [hr] at hi
      rw [hc] at hj
      exact hne ⟨by omega, by omega⟩
  · intro form db newId rand o h herr
    exact (reserve_seat_failure form db newId rand o h herr).1

/-- Witness for C1: booking seat (5,2) on the empty store. -/
theorem C1_booking_success_frame_witness :
    ∃ o res, reserve_seat ⟨"Ann", "Lee", some 5, some 2⟩ ⟨[], []⟩ 1 (fun _ => 0)
        = some o ∧
      o.error = none ∧ o.success.isSome ∧
      res.seatRow = 5 ∧ res.seatColumn = 2 ∧
      o.db.reservations = [] ++ [res] ∧
      o.db.admins = [] ∧
      o.seating = build_seating_chart o.db.reservations ∧
      cellAt (chartSeats o.db.reservations) ((5:Int) - 1).toNat ((2:Int) - 1).toNat
        = some "X" := by
  obtain ⟨o, res, heq, herr, hsucc, hr, hc, hres, hadm, hseat, hcell, _⟩ :=
    C1_booking_success_frame.1 ⟨"Ann", "Lee", some 5, some 2⟩ ⟨[], []⟩ 1
      (fun _ => 0) 5 2 rfl rfl (by decide) (by decide) (by decide) (by decide)
      (by intro res h; cases h)
  exact ⟨o, res, heq, herr, hsucc, hr, hc, hres, hadm, hseat, hcell⟩

/-! ### Total sales and the admin dashboard -/

/-- Every stored reservation has in-range seat coordinates — true of
every store populated through the booking flow. -/
def validSeats (rs : List Reservation) : Prop :=
  ∀ res ∈ rs, 1 ≤ res.seatRow ∧ res.seatRow ≤ 12 ∧
    1 ≤ res.seatColumn ∧ res.seatColumn ≤ 4

lemma total_sales_go (rs : List Reservation) :
    ∀ t : Nat,
    (∀ res ∈ rs, (calculate_price_for_seat res.seatRow res.seatColumn).isSome) →
    rs.foldl (fun total r => total.bind fun tt =>
        (calculate_price_for_seat r.seatRow r.seatColumn).map fun p => tt + p)
      (some t)
      = some (t + (rs.map fun res =>
          (calculate_price_for_seat res.seatRow res.seatColumn).getD 0).sum) := by
  induction rs with
  | nil => intro t _; simp
  | cons r rs ih =>
    intro t hall
    rw [List.foldl_cons]
    obtain ⟨p, hp⟩ := Option.isSome_iff_exists.mp (hall r (List.mem_cons_self _ _))
    rw [hp]
    simp only [Option.some_bind, Option.map_some']
    rw [ih (t + p) (fun res h => hall res (List.mem_cons_of_mem _ h))]
    rw [List.map_cons, List.sum_cons, hp]
    simp only [Option.getD_some]
    congr 1
    omega

lemma calculate_total_sales_eq (rs : List Reservation) (h : validSeats rs) :
    calculate_total_sales rs = some ((rs.map fun res =>
      (calculate_price_for_seat res.seatRow res.seatColumn).getD 0).sum) := by
  have := total_sales_go rs 0 (fun res hres =>
    calculate_price_isSome (h res hres).1 (h res hres).2.1
      (h res hres).2.2.1 (h res hres).2.2.2)
  rw [calculate_total_sales, this, Nat.zero_add]

lemma prices_mapM (rs : List Reservation)
    (h : ∀ res ∈ rs, (calculate_price_for_seat res.seatRow res.seatColumn).isSome) :
    (rs.mapM fun r =>
      (calculate_price_for_seat r.seatRow r.seatColumn).map fun p => (r, p))
      = some (rs.map fun r =>
          (r, (calculate_price_for_seat r.seatRow r.seatColumn).getD 0)) := by
  induction rs with
  | nil => rfl
  | cons r rs ih =>
    rw [List.mapM_cons]
    obtain ⟨p, hp⟩ := Option.isSome_iff_exists.mp (h r (List.mem_cons_self _ _))
    rw [ih (fun res hres => h res (List.mem_cons_of_mem _ hres))]
    rw [hp]
    simp [Option.getD_some, hp]

/-- C5: with every stored seat in range, the dashboard's total sales is
the sum of `calculate_price_for_seat` over all reservations, and the
rendered page carries exactly that total together with each reservation's
individual price; booking seats (1,1) and (1,3) from an empty store
yields a total of 150. -/
theorem C5_total_sales :
    (∀ (db : DB) (u : String), validSeats db.reservations →
      calculate_total_sales db.reservations
        = some ((db.reservations.map fun res =>
            (calculate_price_for_seat res.seatRow res.seatColumn).getD 0).sum) ∧
      admin_dashboard (some u) db
        = some (DashboardView.page (build_seating_chart db.reservations)
            ((db.reservations.map fun res =>
              (calculate_price_for_seat res.seatRow res.seatColumn).getD 0).sum)
            (db.reservations.map fun res =>
              (res, (calculate_price_for_seat res.seatRow res.seatColumn).getD 0)))) ∧
    (∃ o1 o2 : BookOutcome,
      reserve_seat ⟨"Alice", "Smith", some 1, some 1⟩ ⟨[], []⟩ 1 (fun _ => 0)
        = some o1 ∧
      reserve_seat ⟨"Bob", "Jones", some 1, some 3⟩ o1.db 2 (fun _ => 0)
        = some o2 ∧
      calculate_total_sales o2.db.reservations = some 150) := by
  constructor
  · intro db u hvalid
    have hsome : ∀ res ∈ db.reservations,
        (calculate_price_for_seat res.seatRow res.seatColumn).isSome :=
      fun res hres => calculate_price_isSome (hvalid res hres).1
        (hvalid res hres).2.1 (hvalid res hres).2.2.1 (hvalid res hres).2.2.2
    refine ⟨calculate_total_sales_eq _ hvalid, ?_⟩
    simp only [admin_dashboard, calculate_total_sales_eq _ hvalid,
      prices_mapM _ hsome, Option.some_bind, Option.map_some']
  · exact ⟨_, _, rfl, rfl, rfl⟩

/-- Witness for C5: the empty store satisfies the validity hypothesis. -/
theorem C5_total_sales_witness :
    calculate_total_sales ([] : List Reservation)
      = some ((([] : List Reservation).map fun res =>
          (calculate_price_for_seat res.seatRow res.seatColumn).getD 0).sum) ∧
    admin_dashboard (some "root") ⟨[], []⟩
      = some (DashboardView.page (build_seating_chart ([] : List Reservation))
          ((([] : List Reservation).map fun res =>
            (calculate_price_for_seat res.seatRow res.seatColumn).getD 0).sum)
          (([] : List Reservation).map fun res =>
            (res, (calculate_price_for_seat res.seatRow res.seatColumn).getD 0))) :=
  C5_total_sales.1 ⟨[], []⟩ "root" (fun res h => absurd h (List.not_mem_nil res))

/-! ### The admin delete flow -/

/-- The primary-key invariant of the `reservations` table. -/
def uniqueIds (rs : List Reservation) : Prop :=
  List.Pairwise (fun a b => a.id ≠ b.id) rs

lemma eraseP_eq_filter_of_unique {α : Type} (p : α → Bool) :
    ∀ l : List α, List.Pairwise (fun a b => ¬(p a = true ∧ p b = true)) l →
    l.eraseP p = l.filter fun x => !(p x) := by
  intro l
  induction l with
  | nil => intro _; rfl
  | cons a l ih =>
    intro hp
    obtain ⟨hhead, htail⟩ := List.pairwise_cons.mp hp
    by_cases hpa : p a
    · rw [List.eraseP_cons_of_pos hpa, List.filter_cons_of_neg (by simp [hpa])]
      symm
      rw [List.filter_eq_self]
      intro x hx
      have := hhead x hx
      simp only [Bool.not_eq_true']
      by_contra hx'
      simp only [Bool.not_eq_false] at hx'
      exact this ⟨hpa, hx'⟩
    · rw [List.eraseP_cons_of_neg hpa, List.filter_cons_of_pos (by simp [hpa]),
        ih htail]

lemma uniqueIds_imp_pairwise (rs : List Reservation) (resId : Nat)
    (h : uniqueIds rs) :
    List.Pairwise (fun a b => ¬((a.id == resId) = true ∧ (b.id == resId) = true))
      rs := by
  apply h.imp
  intro a b hab hand
  simp only [beq_iff_eq] at hand
  exact hab (hand.1.trans hand.2.symm)

/-- C6: with an admin session, deleting an identifier not present in the
store is a no-op that still redirects to the dashboard; deleting an
existing identifier (ids unique, as the primary key guarantees)
redirects to the dashboard and leaves no reservation with that id. -/
theorem C6_delete_contract (u : String) (db : DB) (resId : Nat) :
    ((∀ res ∈ db.reservations, res.id ≠ resId) →
      delete_reservation (some u) db resId = (DeleteView.redirectDashboard, db)) ∧
    (uniqueIds db.reservations →
      (∃ res ∈ db.reservations, res.id = resId) →
      (delete_reservation (some u) db resId).1 = DeleteView.redirectDashboard ∧
      ∀ res ∈ (delete_reservation (some u) db resId).2.reservations,
        res.id ≠ resId) := by
  constructor
  · intro h
    have hfind : db.reservations.find? (fun r => r.id == resId) = none :=
      List.find?_eq_none.mpr (fun x hx => by simpa using h x hx)
    simp [delete_reservation, hfind]
  · intro huniq hex
    obtain ⟨res0, hres0, hid⟩ := hex
    have hsome : (db.reservations.find? (fun r => r.id == resId)).isSome := by
      rw [List.find?_isSome]
      exact ⟨res0, hres0, by simp [hid]⟩
    obtain ⟨res1, hfind⟩ := Option.isSome_iff_exists.mp hsome
    have herase : db.reservations.eraseP (fun r => r.id == resId)
        = db.reservations.filter (fun r => !(r.id == resId)) :=
      eraseP_eq_filter_of_unique _ _ (uniqueIds_imp_pairwise _ _ huniq)
    constructor
    · simp [delete_reservation, hfind]
    · simp only [delete_reservation, hfind, herase]
      intro res hres
      have := (List.mem_filter.mp hres).2
      simpa using this

/-- Witness for C6: deleting id 1 from a store that only holds id 2. -/
theorem C6_delete_contract_witness :
    delete_reservation (some "root") ⟨[⟨2, "C D", 2, 2, "BBBBBBBB"⟩], []⟩ 1
      = (DeleteView.redirectDashboard, ⟨[⟨2, "C D", 2, 2, "BBBBBBBB"⟩], []⟩) :=
  (C6_delete_contract "root" ⟨[⟨2, "C D", 2, 2, "BBBBBBBB"⟩], []⟩ 1).1
    (by decide)

/-- C10: with an admin session and an existing identifier, the delete flow
removes exactly the reservation with that id: the admins table is
untouched, the remaining reservations are precisely the original ones
whose id differs (in their original order), and every such row is still
present. -/
theorem C10_delete_frame (u : String) (db : DB) (resId : Nat)
    (huniq : uniqueIds db.reservations)
    (hex : ∃ res ∈ db.reservations, res.id = resId) :
    (delete_reservation (some u) db resId).2.admins = db.admins ∧
    (delete_reservation (some u) db resId).2.reservations
      = db.reservations.filter (fun res => !(res.id == resId)) ∧
    ∀ res ∈ db.reservations, res.id ≠ resId →
      res ∈ (delete_reservation (some u) db resId).2.reservations := by
  obtain ⟨res0, hres0, hid⟩ := hex
  have hsome : (db.reservations.find? (fun r => r.id == resId)).isSome := by
    rw [List.find?_isSome]
    exact ⟨res0, hres0, by simp [hid]⟩
  obtain ⟨res1, hfind⟩ := Option.isSome_iff_exists.mp hsome
  have herase : db.reservations.eraseP (fun r => r.id == resId)
      = db.reservations.filter (fun r => !(r.id == resId)) :=
    eraseP_eq_filter_of_unique _ _ (uniqueIds_imp_pairwise _ _ huniq)
  refine ⟨?_, ?_, ?_⟩
  · simp [delete_reservation, hfind]
  · simp [delete_reservation, hfind, herase]
  · intro res hres hne
    simp only [delete_reservation, hfind, herase]
    exact List.mem_filter.mpr ⟨hres, by simp [hne]⟩

/-- Witness for C10: deleting id 1 from a two-row store keeps row 2 and
the admin record. -/
theorem C10_delete_frame_witness :
    (delete_reservation (some "root")
        ⟨[⟨1, "A B", 1, 1, "AAAAAAAA"⟩, ⟨2, "C D", 2, 2, "BBBBBBBB"⟩],
         [⟨"a", "p"⟩]⟩ 1).2.admins = [⟨"a", "p"⟩] ∧
    (delete_reservation (some "root")
        ⟨[⟨1, "A B", 1, 1, "AAAAAAAA"⟩, ⟨2, "C D", 2, 2, "BBBBBBBB"⟩],
         [⟨"a", "p"⟩]⟩ 1).2.reservations
      = ([⟨1, "A B", 1, 1, "AAAAAAAA"⟩, ⟨2, "C D", 2, 2, "BBBBBBBB"⟩] :
          List Reservation).filter (fun res => !(res.id == 1)) := by
  have h := C10_delete_frame "root"
    ⟨[⟨1, "A B", 1, 1, "AAAAAAAA"⟩, ⟨2, "C D", 2, 2, "BBBBBBBB"⟩], [⟨"a", "p"⟩]⟩ 1
    (by rw [uniqueIds]; decide)
    ⟨⟨1, "A B", 1, 1, "AAAAAAAA"⟩, by simp, rfl⟩
  exact ⟨h.1, h.2.1⟩

/-! ### The admin login flow and dashboard gate -/

/-- C7: the dashboard is never rendered without the session key — every
sessionless request is redirected to the login flow — and a login whose
trimmed credentials match a stored admin establishes a session under
which the dashboard renders a page. -/
theorem C7_dashboard_gate :
    (∀ db : DB, admin_dashboard none db = some DashboardView.redirectLogin) ∧
    (∀ (form : LoginForm) (db : DB) (sess : Option String),
      (∃ a ∈ db.admins, a.username = form.username.trim ∧
        a.password = form.password.trim) →
      (admin_login form db sess).1 = LoginView.redirectDashboard ∧
      ∃ u, (admin_login form db sess).2 = some u ∧
        ∀ db2 : DB, validSeats db2.reservations →
          ∃ s t lst, admin_dashboard (some u) db2
            = some (DashboardView.page s t lst)) := by
  constructor
  · intro db
    rfl
  · intro form db sess hex
    obtain ⟨a0, ha0, hu, hpw⟩ := hex
    have hsome : (db.admins.find? (fun a => a.username == form.username.trim &&
        a.password == form.password.trim)).isSome := by
      rw [List.find?_isSome]
      exact ⟨a0, ha0, by simp [hu, hpw]⟩
    obtain ⟨a1, hfind⟩ := Option.isSome_iff_exists.mp hsome
    refine ⟨by simp [admin_login, hfind], a1.username,
      by simp [admin_login, hfind], ?_⟩
    intro db2 hvalid
    have hsome2 : ∀ res ∈ db2.reservations,
        (calculate_price_for_seat res.seatRow res.seatColumn).isSome :=
      fun res hres => calculate_price_isSome (hvalid res hres).1
        (hvalid res hres).2.1 (hvalid res hres).2.2.1 (hvalid res hres).2.2.2
    have hdash : admin_dashboard (some a1.username) db2
        = some (DashboardView.page (build_seating_chart db2.reservations)
            ((db2.reservations.map fun res =>
              (calculate_price_for_seat res.seatRow res.seatColumn).getD 0).sum)
            (db2.reservations.map fun res =>
              (res, (calculate_price_for_seat res.seatRow res.seatColumn).getD 0))) := by
      simp only [admin_dashboard, calculate_total_sales_eq _ hvalid,
        prices_mapM _ hsome2, Option.some_bind, Option.map_some']
    exact ⟨_, _, _, hdash⟩

/-- Witness for C7: logging in with padded credentials against a stored
admin holding the trimmed pair reaches the dashboard on an empty store. -/
theorem C7_dashboard_gate_witness :
    (admin_login ⟨" a ", " p "⟩ ⟨[], [⟨" a ".trim, " p ".trim⟩]⟩ none).1
      = LoginView.redirectDashboard ∧
    ∃ u, (admin_login ⟨" a ", " p "⟩ ⟨[], [⟨" a ".trim, " p ".trim⟩]⟩ none).2
        = some u ∧
      ∃ s t lst, admin_dashboard (some u) ⟨[], []⟩
        = some (DashboardView.page s t lst) := by
  obtain ⟨h1, u, h2, h3⟩ := C7_dashboard_gate.2 ⟨" a ", " p "⟩
    ⟨[], [⟨" a ".trim, " p ".trim⟩]⟩ none
    ⟨⟨" a ".trim, " p ".trim⟩, List.mem_singleton.mpr rfl, rfl, rfl⟩
  exact ⟨h1, u, h2, h3 ⟨[], []⟩ (fun res h => absurd h (List.not_mem_nil res))⟩

/-- Witness for the amended C9: row 13 is beyond even the negative-index
range, so the lookup raises. -/
theorem C9_priceOf_out_of_bounds_witness :
    calculate_price_for_seat 13 1 = none :=
  C9_priceOf_out_of_bounds 13 1 (Or.inr (Or.inl (by decide)))
